import Mathlib

/-
Shallow embedding of the Glucommander IV-insulin dosing logic.

Source files modelled:
- src/infusion.py : calc_initial_rate_and_bolus, calc_ongoing_rate, and the
  ongoing-mode UI advisory branch (lines 143-151).
- src/iv_insulin_calculator.py : the initial-bolus branch (lines 19-24) and
  the ongoing-infusion branch (lines 26-77).

Python floats are modelled as exact rationals.  Python's round(x, 1) and
round(x) round half to even (banker's rounding); they are modelled below by
rhe (round to nearest integer, half to even) and round1 (round to the
nearest tenth, half to even).
-/

/-- Python's round to nearest integer, ties to even (banker's rounding),
on exact rationals. -/
def rhe (x : ℚ) : ℤ :=
  if x - ⌊x⌋ < 1/2 then ⌊x⌋
  else if 1/2 < x - ⌊x⌋ then ⌊x⌋ + 1
  else if ⌊x⌋ % 2 = 0 then ⌊x⌋ else ⌊x⌋ + 1

/-- Python's round(x, 1): round to the nearest tenth, ties to even. -/
def round1 (x : ℚ) : ℚ := (rhe (10 * x) : ℚ) / 10

/-- Base multiplier from the glucose band, infusion.py lines 62-69.
Note the final else branch (commented "≥250" in the source) is reached both
for curr_bg ≥ 250 and for curr_bg < 110. -/
def base_m (curr_bg : ℚ) : ℚ :=
  if 110 ≤ curr_bg ∧ curr_bg < 140 then 0.02
  else if 140 ≤ curr_bg ∧ curr_bg < 180 then 0.02
  else if 180 ≤ curr_bg ∧ curr_bg < 250 then 0.02
  else 0.03

/-- Rate-of-change adjustment of the multiplier, infusion.py lines 72-77. -/
def step3_m (curr_bg delta : ℚ) : ℚ :=
  if 40 ≤ delta then 0.014
  else if delta ≤ 0 then 0.03
  else base_m curr_bg

/-- calc_ongoing_rate from infusion.py (lines 45-86): hypoglycemia gate,
band multiplier, rate-of-change adjustment, persistent-hyperglycemia
escalation, final rate rounded to one decimal. -/
def calc_ongoing_rate (curr_bg prev_bg last_rate : ℚ) : ℚ :=
  if curr_bg < 70 then 0
  else
    round1 (max ((curr_bg - 60) *
      (if 180 ≤ curr_bg ∧ prev_bg - curr_bg ≤ 10 then
         max (step3_m curr_bg (prev_bg - curr_bg))
             (last_rate / max (curr_bg - 60) 1 + 0.01)
       else step3_m curr_bg (prev_bg - curr_bg))) 0)

/-- calc_initial_rate_and_bolus from infusion.py (lines 28-42):
divisor 70 when bg ≥ 300, else 100; bolus rounded to one decimal;
rate equal to bolus. -/
def calc_initial_rate_and_bolus (bg : ℚ) : ℚ × ℚ :=
  if 300 ≤ bg then (round1 (bg / 70), round1 (bg / 70))
  else (round1 (bg / 100), round1 (bg / 100))

/-- Advisory shown by the ongoing-mode UI branch of infusion.py
(lines 144-148). -/
inductive Advisory : Type where
  | hypoglycemia : Advisory
  | setPump : Advisory

/-- Ongoing-mode result of infusion.py as presented by the UI branch
(lines 143-151): the new rate plus the advisory selected there. -/
def titrate (curr_bg prev_bg last_rate : ℚ) : ℚ × Advisory :=
  if calc_ongoing_rate curr_bg prev_bg last_rate = 0 ∧ curr_bg < 70 then
    (calc_ongoing_rate curr_bg prev_bg last_rate, Advisory.hypoglycemia)
  else
    (calc_ongoing_rate curr_bg prev_bg last_rate, Advisory.setPump)

/-- Initial bolus of iv_insulin_calculator.py line 20: integer rounding. -/
def iv_initial_bolus (A : ℚ) : ℚ :=
  if A < 300 then (rhe (A / 100) : ℚ) else (rhe (A / 70) : ℚ)

/-- Initial infusion rate of iv_insulin_calculator.py line 21:
one-decimal rounding. -/
def iv_initial_rate (A : ℚ) : ℚ :=
  if A < 300 then round1 (A / 100) else round1 (A / 70)

/-- Ongoing new_rate of iv_insulin_calculator.py lines 26-77, before the
display rounding of line 81.  delta = B - C there (negative when glucose
fell).  Gaps between the elif chains (e.g. 110 < B < 110.1) leave new_rate
as None. -/
def iv_ongoing_rate (B C last_rate : ℚ) : Option ℚ :=
  if B < 70 then some 0
  else if 70 ≤ B ∧ B ≤ 110 then some 0
  else if 110.1 ≤ B ∧ B ≤ 139 then
    (if 1 ≤ B - C then some ((B - 60) * 0.03)
     else if B - C ≤ 0 ∧ -20 ≤ B - C then some ((B - 60) * 0.02)
     else if B - C ≤ -20.1 ∧ -40 ≤ B - C then some ((B - 60) * 0.014)
     else some 0)
  else if 139.1 ≤ B ∧ B ≤ 179 then
    (if 1 ≤ B - C then some ((B - 60) * 0.03)
     else if B - C ≤ 0 ∧ -20 ≤ B - C then some ((B - 60) * 0.02)
     else if B - C ≤ -20.1 ∧ -40 ≤ B - C then some ((B - 60) * 0.014)
     else some 0)
  else if 179.1 ≤ B ∧ B ≤ 249 then
    (if -10 ≤ B - C then some ((B - 60) * (last_rate / (B - 60) + 0.01))
     else if B - C ≤ -11 ∧ -40 ≤ B - C then some ((B - 60) * 0.03)
     else if B - C ≤ -41 ∧ -80 ≤ B - C then some ((B - 60) * 0.02)
     else some ((B - 60) * 0.014))
  else if 249 < B then
    (if -40 ≤ B - C then some ((B - 60) * (last_rate / (B - 60) + 0.01))
     else if B - C ≤ -41 ∧ -80 ≤ B - C then some ((B - 60) * 0.03)
     else if B - C ≤ -81 ∧ -120 ≤ B - C then some ((B - 60) * 0.02)
     else some ((B - 60) * 0.014))
  else none

/-- Index of the glucose band containing bg, with the cutoffs 110, 140,
180, 250 used by calc_ongoing_rate. -/
def bandIdx (bg : ℚ) : ℕ :=
  if bg < 110 then 0
  else if bg < 140 then 1
  else if bg < 180 then 2
  else if bg < 250 then 3
  else 4

/-- The floor is a lower bound for banker's rounding. -/
theorem floor_le_rhe (x : ℚ) : ⌊x⌋ ≤ rhe x := by
  unfold rhe
  split_ifs <;> omega

/-- Banker's rounding exceeds the floor by at most one. -/
theorem rhe_le_floor_add_one (x : ℚ) : rhe x ≤ ⌊x⌋ + 1 := by
  unfold rhe
  split_ifs <;> omega

/-- Banker's rounding is monotone. -/
theorem rhe_mono {x y : ℚ} (h : x ≤ y) : rhe x ≤ rhe y := by
  rcases lt_or_le ⌊x⌋ ⌊y⌋ with hf | hf
  · calc rhe x ≤ ⌊x⌋ + 1 := rhe_le_floor_add_one x
      _ ≤ ⌊y⌋ := hf
      _ ≤ rhe y := floor_le_rhe y
  · have hfe : ⌊x⌋ = ⌊y⌋ := le_antisymm (Int.floor_mono h) hf
    unfold rhe
    rw [hfe]
    have hxy : x - (⌊y⌋ : ℚ) ≤ y - (⌊y⌋ : ℚ) := by linarith
    split_ifs <;> first | omega | (exfalso; linarith)

/-- Rounding to tenths is monotone. -/
theorem round1_mono {x y : ℚ} (h : x ≤ y) : round1 x ≤ round1 y := by
  unfold round1
  have h1 : rhe (10 * x) ≤ rhe (10 * y) := rhe_mono (by linarith)
  have h2 : ((rhe (10 * x) : ℤ) : ℚ) ≤ ((rhe (10 * y) : ℤ) : ℚ) := by exact_mod_cast h1
  linarith

/-- Banker's rounding of a nonnegative number is nonnegative. -/
theorem rhe_nonneg {x : ℚ} (h : 0 ≤ x) : 0 ≤ rhe x := by
  have h1 := floor_le_rhe x
  have h2 : 0 ≤ ⌊x⌋ := Int.floor_nonneg.mpr h
  omega

/-- Rounding max(x, 0) to tenths gives a nonnegative result. -/
theorem round1_max_nonneg (x : ℚ) : 0 ≤ round1 (max x 0) := by
  unfold round1
  have h0 : (0 : ℚ) ≤ 10 * max x 0 := by
    have hm : (0 : ℚ) ≤ max x 0 := le_max_right x 0
    linarith
  have h1 : 0 ≤ rhe (10 * max x 0) := rhe_nonneg h0
  have h2 : (0 : ℚ) ≤ ((rhe (10 * max x 0) : ℤ) : ℚ) := by exact_mod_cast h1
  linarith

/-- Above the hypoglycemia gate, calc_ongoing_rate is the rounded clamped
product of (curr_bg - 60) with the final multiplier. -/
theorem calc_ongoing_rate_of_le (curr_bg prev_bg last_rate : ℚ)
    (h : 70 ≤ curr_bg) :
    calc_ongoing_rate curr_bg prev_bg last_rate =
      round1 (max ((curr_bg - 60) *
        (if 180 ≤ curr_bg ∧ prev_bg - curr_bg ≤ 10 then
           max (step3_m curr_bg (prev_bg - curr_bg))
               (last_rate / max (curr_bg - 60) 1 + 0.01)
         else step3_m curr_bg (prev_bg - curr_bg))) 0) := by
  unfold calc_ongoing_rate
  rw [if_neg (not_lt.mpr h)]

/-- The step-3 multiplier is positive. -/
theorem step3_m_pos (bg delta : ℚ) : 0 < step3_m bg delta := by
  unfold step3_m base_m
  split_ifs <;> norm_num

/-- Below 110 mg/dL the base multiplier is 0.03 (the final else branch). -/
theorem base_m_lt110 {c : ℚ} (h : c < 110) : base_m c = 0.03 := by
  unfold base_m
  rw [if_neg (fun hh => absurd hh.1 (by linarith)),
    if_neg (fun hh => absurd hh.1 (by linarith)),
    if_neg (fun hh => absurd hh.1 (by linarith))]

/-- Base multiplier in the band 110 to 140. -/
theorem base_m_110_140 {c : ℚ} (h1 : 110 ≤ c) (h2 : c < 140) :
    base_m c = 0.02 := by
  unfold base_m
  rw [if_pos ⟨h1, h2⟩]

/-- Base multiplier in the band 140 to 180. -/
theorem base_m_140_180 {c : ℚ} (h1 : 140 ≤ c) (h2 : c < 180) :
    base_m c = 0.02 := by
  unfold base_m
  rw [if_neg (fun hh => absurd hh.2 (by linarith)), if_pos ⟨h1, h2⟩]

/-- Base multiplier in the band 180 to 250. -/
theorem base_m_180_250 {c : ℚ} (h1 : 180 ≤ c) (h2 : c < 250) :
    base_m c = 0.02 := by
  unfold base_m
  rw [if_neg (fun hh => absurd hh.2 (by linarith)),
    if_neg (fun hh => absurd hh.2 (by linarith)), if_pos ⟨h1, h2⟩]

/-- Base multiplier at or above 250. -/
theorem base_m_ge250 {c : ℚ} (h : 250 ≤ c) : base_m c = 0.03 := by
  unfold base_m
  rw [if_neg (fun hh => absurd hh.2 (by linarith)),
    if_neg (fun hh => absurd hh.2 (by linarith)),
    if_neg (fun hh => absurd hh.2 (by linarith))]

/-- Band index 0 forces the glucose range below 110. -/
theorem range_of_bandIdx0 {c : ℚ} (h : bandIdx c = 0) : c < 110 := by
  by_contra hc
  unfold bandIdx at h
  rw [if_neg hc] at h
  split_ifs at h <;> omega

/-- Band index 1 forces the glucose range 110 to 140. -/
theorem range_of_bandIdx1 {c : ℚ} (h : bandIdx c = 1) : 110 ≤ c ∧ c < 140 := by
  unfold bandIdx at h
  split_ifs at h with h1 h2 h3 h4
  all_goals first | omega | exact ⟨not_lt.mp h1, h2⟩

/-- Band index 2 forces the glucose range 140 to 180. -/
theorem range_of_bandIdx2 {c : ℚ} (h : bandIdx c = 2) : 140 ≤ c ∧ c < 180 := by
  unfold bandIdx at h
  split_ifs at h with h1 h2 h3 h4
  all_goals first | omega | exact ⟨not_lt.mp h2, h3⟩

/-- Band index 3 forces the glucose range 180 to 250. -/
theorem range_of_bandIdx3 {c : ℚ} (h : bandIdx c = 3) : 180 ≤ c ∧ c < 250 := by
  unfold bandIdx at h
  split_ifs at h with h1 h2 h3 h4
  all_goals first | omega | exact ⟨not_lt.mp h3, h4⟩

/-- Band index 4 forces the glucose range at or above 250. -/
theorem range_of_bandIdx4 {c : ℚ} (h : bandIdx c = 4) : 250 ≤ c := by
  unfold bandIdx at h
  split_ifs at h with h1 h2 h3 h4
  all_goals first | omega | exact not_lt.mp h4

/-- Equal band indices give equal base multipliers. -/
theorem base_m_eq_of_bandIdx {c1 c2 : ℚ} (h : bandIdx c1 = bandIdx c2) :
    base_m c1 = base_m c2 := by
  have h5 : bandIdx c1 = 0 ∨ bandIdx c1 = 1 ∨ bandIdx c1 = 2 ∨
      bandIdx c1 = 3 ∨ bandIdx c1 = 4 := by
    unfold bandIdx
    split_ifs <;> omega
  rcases h5 with e | e | e | e | e
  · rw [base_m_lt110 (range_of_bandIdx0 e),
      base_m_lt110 (range_of_bandIdx0 (show bandIdx c2 = 0 by omega))]
  · obtain ⟨a1, b1⟩ := range_of_bandIdx1 e
    obtain ⟨a2, b2⟩ := range_of_bandIdx1 (show bandIdx c2 = 1 by omega)
    rw [base_m_110_140 a1 b1, base_m_110_140 a2 b2]
  · obtain ⟨a1, b1⟩ := range_of_bandIdx2 e
    obtain ⟨a2, b2⟩ := range_of_bandIdx2 (show bandIdx c2 = 2 by omega)
    rw [base_m_140_180 a1 b1, base_m_140_180 a2 b2]
  · obtain ⟨a1, b1⟩ := range_of_bandIdx3 e
    obtain ⟨a2, b2⟩ := range_of_bandIdx3 (show bandIdx c2 = 3 by omega)
    rw [base_m_180_250 a1 b1, base_m_180_250 a2 b2]
  · rw [base_m_ge250 (range_of_bandIdx4 e),
      base_m_ge250 (range_of_bandIdx4 (show bandIdx c2 = 4 by omega))]

/-- The band index decides the 180 mg/dL escalation threshold. -/
theorem bandIdx_ge180 {c : ℚ} : 180 ≤ c ↔ 3 ≤ bandIdx c := by
  unfold bandIdx
  split_ifs <;>
    constructor <;>
    intro h <;>
    first | omega | linarith | (exfalso; first | omega | linarith)

/-- Claim C1: for every current_bg < 70 (with previous_bg and last_rate
nonnegative), the ongoing titration returns new_rate = 0 with the
hypoglycemia advisory; the gate short-circuits all other logic. -/
theorem hypoglycemia_gate (curr prev lr : ℚ) (h : curr < 70)
    (hp : 0 ≤ prev) (hl : 0 ≤ lr) :
    titrate curr prev lr = (0, Advisory.hypoglycemia) := by
  have h0 : calc_ongoing_rate curr prev lr = 0 := by
    unfold calc_ongoing_rate
    rw [if_pos h]
  unfold titrate
  rw [h0, if_pos ⟨rfl, h⟩]

/-- Witness for C1 at current_bg = 65, previous_bg = 100, last_rate = 2. -/
theorem hypoglycemia_gate_witness :
    (65 : ℚ) < 70 ∧ (0 : ℚ) ≤ 100 ∧ (0 : ℚ) ≤ 2 ∧
      titrate 65 100 2 = (0, Advisory.hypoglycemia) :=
  ⟨by norm_num, by norm_num, by norm_num,
    hypoglycemia_gate 65 100 2 (by norm_num) (by norm_num) (by norm_num)⟩

/-- Claim C2: for every bg ≥ 0 the initial dose has bolus round(bg/70, 1)
when bg ≥ 300 and round(bg/100, 1) when bg < 300, and the returned rate
equals the returned bolus. -/
theorem initial_dose_formula (bg : ℚ) (h : 0 ≤ bg) :
    (300 ≤ bg → (calc_initial_rate_and_bolus bg).1 = round1 (bg / 70)) ∧
      (bg < 300 → (calc_initial_rate_and_bolus bg).1 = round1 (bg / 100)) ∧
      (calc_initial_rate_and_bolus bg).2 = (calc_initial_rate_and_bolus bg).1 := by
  unfold calc_initial_rate_and_bolus
  refine ⟨fun h3 => ?_, fun h3 => ?_, ?_⟩
  · rw [if_pos h3]
  · rw [if_neg (not_le.mpr h3)]
  · split_ifs <;> rfl

/-- Witness for C2 at bg = 310. -/
theorem initial_dose_formula_witness :
    (0 : ℚ) ≤ 310 ∧
      ((300 ≤ (310 : ℚ) →
          (calc_initial_rate_and_bolus 310).1 = round1 (310 / 70)) ∧
        ((310 : ℚ) < 300 →
          (calc_initial_rate_and_bolus 310).1 = round1 (310 / 100)) ∧
        (calc_initial_rate_and_bolus 310).2 = (calc_initial_rate_and_bolus 310).1) :=
  ⟨by norm_num, initial_dose_formula 310 (by norm_num)⟩

/-- Claim C3 (code bug): at current_bg = 80, previous_bg = 90, last_rate = 1
the hold band of the spec demands new_rate = 0, but calc_ongoing_rate in
infusion.py returns 0.6 U/h because 70 to 110 mg/dL falls into the final
else branch of the band table, whose comment says it is for 250 and above;
the second source file iv_insulin_calculator.py does implement the hold
band and returns 0 on the same input. -/
theorem hold_band_not_held :
    calc_ongoing_rate 80 90 1 = 6 / 10 ∧ iv_ongoing_rate 80 90 1 = some 0 := by
  constructor
  · norm_num [calc_ongoing_rate, step3_m, base_m, round1, rhe, max_def]
  · norm_num [iv_ongoing_rate]

/-- Counterexample for C6: calc_initial_rate_and_bolus performs no input
validation; at bg = -5 it runs the usual bg < 300 branch and returns the
numeric pair (round(-5/100, 1), round(-5/100, 1)) instead of failing. -/
theorem initial_dose_neg5_numeric :
    calc_initial_rate_and_bolus (-5) =
      (round1 ((-5) / 100), round1 ((-5) / 100)) := by
  unfold calc_initial_rate_and_bolus
  rw [if_neg (by norm_num)]

/-- Claim C6 amended: for every bg < 0 the code performs the ordinary
bg < 300 computation and returns bolus = round(bg/100, 1) with rate equal
to bolus; no InvalidInput rejection exists in the pure function (negative
input is only blocked by the UI widget's minimum of 0). -/
theorem initial_dose_negative_no_check (bg : ℚ) (h : bg < 0) :
    calc_initial_rate_and_bolus bg = (round1 (bg / 100), round1 (bg / 100)) := by
  unfold calc_initial_rate_and_bolus
  rw [if_neg (by linarith)]

/-- Witness for the amended C6 at bg = -5. -/
theorem initial_dose_negative_no_check_witness :
    (-5 : ℚ) < 0 ∧
      calc_initial_rate_and_bolus (-5) =
        (round1 ((-5) / 100), round1 ((-5) / 100)) :=
  ⟨by norm_num, initial_dose_negative_no_check (-5) (by norm_num)⟩

/-- Claim C9: the two coexisting initial-dose variants are not equivalent.
At bg = 256 the iv_insulin_calculator.py variant returns the
integer-rounded bolus round(256/100) = 3, while infusion.py returns the
one-decimal bolus round(256/100, 1) = 2.6, and the two values differ. -/
theorem initial_variant_divergence :
    iv_initial_bolus 256 = 3 ∧ (calc_initial_rate_and_bolus 256).1 = 26 / 10 ∧
      iv_initial_bolus 256 ≠ (calc_initial_rate_and_bolus 256).1 := by
  refine ⟨?_, ?_, ?_⟩
  · norm_num [iv_initial_bolus, rhe]
  · norm_num [calc_initial_rate_and_bolus, round1, rhe]
  · norm_num [iv_initial_bolus, calc_initial_rate_and_bolus, round1, rhe]

/-- Claim C10: last_rate does not influence the ongoing rate outside the
persistent-hyperglycemia escalation path: whenever current_bg < 180 or
delta > 10, two calls that differ only in last_rate return the same rate. -/
theorem last_rate_noninterference (curr prev lr1 lr2 : ℚ)
    (h1 : 0 ≤ lr1) (h2 : 0 ≤ lr2) (h : curr < 180 ∨ 10 < prev - curr) :
    calc_ongoing_rate curr prev lr1 = calc_ongoing_rate curr prev lr2 := by
  have hng : ¬(180 ≤ curr ∧ prev - curr ≤ 10) := by
    rcases h with h | h <;> rintro ⟨a, b⟩ <;> linarith
  unfold calc_ongoing_rate
  simp only [if_neg hng]

/-- Witness for C10 at current_bg = 120, previous_bg = 130,
last_rate 1 versus 5. -/
theorem last_rate_noninterference_witness :
    (0 : ℚ) ≤ 1 ∧ (0 : ℚ) ≤ 5 ∧
      ((120 : ℚ) < 180 ∨ 10 < (130 : ℚ) - 120) ∧
      calc_ongoing_rate 120 130 1 = calc_ongoing_rate 120 130 5 :=
  ⟨by norm_num, by norm_num, Or.inl (by norm_num),
    last_rate_noninterference 120 130 1 5 (by norm_num) (by norm_num)
      (Or.inl (by norm_num))⟩

/-- Claim C4: when the escalation of step 4 does not apply (current_bg
below 180, or delta above 10), the rate is the rounded clamped product of
(current_bg - 60) with the step-3 multiplier, which is exactly 0.014 for
delta ≥ 40, exactly 0.03 for delta ≤ 0, and the band's base multiplier for
0 < delta < 40. -/
theorem rate_of_change_override (curr prev lr : ℚ) (h70 : 70 ≤ curr)
    (hesc : curr < 180 ∨ 10 < prev - curr) :
    calc_ongoing_rate curr prev lr =
        round1 (max ((curr - 60) * step3_m curr (prev - curr)) 0) ∧
      (40 ≤ prev - curr → step3_m curr (prev - curr) = 0.014) ∧
      (prev - curr ≤ 0 → step3_m curr (prev - curr) = 0.03) ∧
      (0 < prev - curr ∧ prev - curr < 40 →
        step3_m curr (prev - curr) = base_m curr) := by
  have hng : ¬(180 ≤ curr ∧ prev - curr ≤ 10) := by
    rcases hesc with h | h <;> rintro ⟨a, b⟩ <;> linarith
  refine ⟨?_, fun h1 => ?_, fun h1 => ?_, fun h1 => ?_⟩
  · rw [calc_ongoing_rate_of_le curr prev lr h70, if_neg hng]
  · unfold step3_m
    rw [if_pos h1]
  · unfold step3_m
    rw [if_neg (by linarith), if_pos h1]
  · unfold step3_m
    rw [if_neg (by linarith [h1.2]), if_neg (by linarith [h1.1])]

/-- Witness for C4 at current_bg = 150, previous_bg = 140, last_rate = 2
(delta = -10, static or rising). -/
theorem rate_of_change_override_witness :
    (70 : ℚ) ≤ 150 ∧ ((150 : ℚ) < 180 ∨ 10 < (140 : ℚ) - 150) ∧
      (calc_ongoing_rate 150 140 2 =
          round1 (max ((150 - 60) * step3_m 150 (140 - 150)) 0) ∧
        (40 ≤ (140 : ℚ) - 150 → step3_m 150 (140 - 150) = 0.014) ∧
        ((140 : ℚ) - 150 ≤ 0 → step3_m 150 (140 - 150) = 0.03) ∧
        (0 < (140 : ℚ) - 150 ∧ (140 : ℚ) - 150 < 40 →
          step3_m 150 (140 - 150) = base_m 150)) :=
  ⟨by norm_num, Or.inl (by norm_num),
    rate_of_change_override 150 140 2 (by norm_num) (Or.inl (by norm_num))⟩

/-- Claim C5: for current_bg ≥ 180 and delta ≤ 10 the final multiplier is
the maximum of the step-3 multiplier and the adaptive multiplier
last_rate / max(current_bg - 60, 1) + 0.01; in particular at
current_bg = 200, previous_bg = 205, last_rate = 3 the escalation path
gives a rate of at least 4.2 U/h. -/
theorem persistent_hyperglycemia_escalation (curr prev lr : ℚ)
    (h180 : 180 ≤ curr) (hd : prev - curr ≤ 10) :
    calc_ongoing_rate curr prev lr =
        round1 (max ((curr - 60) *
          max (step3_m curr (prev - curr))
            (lr / max (curr - 60) 1 + 0.01)) 0) ∧
      (42 : ℚ) / 10 ≤ calc_ongoing_rate 200 205 3 := by
  constructor
  · rw [calc_ongoing_rate_of_le curr prev lr (by linarith), if_pos ⟨h180, hd⟩]
  · have hval : calc_ongoing_rate 200 205 3 = 22 / 5 := by
      norm_num [calc_ongoing_rate, step3_m, base_m, round1, rhe, max_def]
    rw [hval]
    norm_num

/-- Witness for C5 at current_bg = 200, previous_bg = 205, last_rate = 3. -/
theorem persistent_hyperglycemia_escalation_witness :
    (180 : ℚ) ≤ 200 ∧ (205 : ℚ) - 200 ≤ 10 ∧
      (calc_ongoing_rate 200 205 3 =
          round1 (max ((200 - 60) *
            max (step3_m 200 (205 - 200))
              (3 / max ((200 : ℚ) - 60) 1 + 0.01)) 0) ∧
        (42 : ℚ) / 10 ≤ calc_ongoing_rate 200 205 3) :=
  ⟨by norm_num, by norm_num,
    persistent_hyperglycemia_escalation 200 205 3 (by norm_num) (by norm_num)⟩

/-- Every rounded value is an integer number of tenths. -/
theorem round1_tenths (x : ℚ) : ∃ k : ℤ, round1 x = (k : ℚ) / 10 :=
  ⟨rhe (10 * x), rfl⟩

/-- Claim C7: for nonnegative inputs the ongoing rate is nonnegative and a
multiple of 0.1 (an integer number of tenths). -/
theorem rate_nonneg_tenths (curr prev lr : ℚ) (h1 : 0 ≤ curr)
    (h2 : 0 ≤ prev) (h3 : 0 ≤ lr) :
    0 ≤ calc_ongoing_rate curr prev lr ∧
      ∃ k : ℤ, calc_ongoing_rate curr prev lr = (k : ℚ) / 10 := by
  unfold calc_ongoing_rate
  split_ifs with h
  · exact ⟨le_rfl, 0, by norm_num⟩
  all_goals exact ⟨round1_max_nonneg _, round1_tenths _⟩

/-- Witness for C7 at current_bg = 100, previous_bg = 90, last_rate = 1. -/
theorem rate_nonneg_tenths_witness :
    (0 : ℚ) ≤ 100 ∧ (0 : ℚ) ≤ 90 ∧ (0 : ℚ) ≤ 1 ∧
      (0 ≤ calc_ongoing_rate 100 90 1 ∧
        ∃ k : ℤ, calc_ongoing_rate 100 90 1 = (k : ℚ) / 10) :=
  ⟨by norm_num, by norm_num, by norm_num,
    rate_nonneg_tenths 100 90 1 (by norm_num) (by norm_num) (by norm_num)⟩

/-- Claim C8: holding last_rate fixed and keeping the glucose delta
constant, increasing current_bg within a single glucose band (at or above
70 mg/dL) never decreases the rate returned by calc_ongoing_rate. -/
theorem monotone_within_band (c1 c2 p1 p2 lr : ℚ) (h70 : 70 ≤ c1)
    (h12 : c1 ≤ c2) (hband : bandIdx c1 = bandIdx c2)
    (hdelta : p1 - c1 = p2 - c2) (hlr : 0 ≤ lr) :
    calc_ongoing_rate c1 p1 lr ≤ calc_ongoing_rate c2 p2 lr := by
  have h702 : 70 ≤ c2 := le_trans h70 h12
  rw [calc_ongoing_rate_of_le c1 p1 lr h70,
    calc_ongoing_rate_of_le c2 p2 lr h702]
  apply round1_mono
  apply max_le_max _ le_rfl
  rw [hdelta]
  set d := p2 - c2 with hd
  have hstep : step3_m c1 d = step3_m c2 d := by
    unfold step3_m
    rw [base_m_eq_of_bandIdx hband]
  have hmpos : 0 < step3_m c1 d := step3_m_pos c1 d
  have hiff : (180 ≤ c1) ↔ (180 ≤ c2) := by
    rw [bandIdx_ge180, bandIdx_ge180, hband]
  by_cases hg : 180 ≤ c1 ∧ d ≤ 10
  · have hg2 : 180 ≤ c2 ∧ d ≤ 10 := ⟨hiff.mp hg.1, hg.2⟩
    rw [if_pos hg, if_pos hg2]
    have hc1 : (1 : ℚ) ≤ c1 - 60 := by linarith [hg.1]
    have hc2 : (1 : ℚ) ≤ c2 - 60 := by linarith [hg2.1]
    rw [max_eq_left hc1, max_eq_left hc2]
    have hne1 : c1 - 60 ≠ 0 := by linarith
    have hne2 : c2 - 60 ≠ 0 := by linarith
    have e1 : (c1 - 60) * max (step3_m c1 d) (lr / (c1 - 60) + 0.01) =
        max ((c1 - 60) * step3_m c1 d) (lr + (c1 - 60) * 0.01) := by
      rw [mul_max_of_nonneg _ _ (by linarith : (0 : ℚ) ≤ c1 - 60)]
      congr 1
      field_simp
      ring
    have e2 : (c2 - 60) * max (step3_m c2 d) (lr / (c2 - 60) + 0.01) =
        max ((c2 - 60) * step3_m c2 d) (lr + (c2 - 60) * 0.01) := by
      rw [mul_max_of_nonneg _ _ (by linarith : (0 : ℚ) ≤ c2 - 60)]
      congr 1
      field_simp
      ring
    rw [e1, e2, ← hstep]
    apply max_le_max
    · exact mul_le_mul_of_nonneg_right (by linarith) (le_of_lt hmpos)
    · have h001 : (0.01 : ℚ) = 1 / 100 := by norm_num
      rw [h001]
      linarith
  · have hg2 : ¬(180 ≤ c2 ∧ d ≤ 10) := fun hh => hg ⟨hiff.mpr hh.1, hh.2⟩
    rw [if_neg hg, if_neg hg2, ← hstep]
    exact mul_le_mul_of_nonneg_right (by linarith) (le_of_lt hmpos)

/-- Witness for C8: band 110 to 140, current_bg 120 versus 130, delta 5
held constant, last_rate 2. -/
theorem monotone_within_band_witness :
    (70 : ℚ) ≤ 120 ∧ (120 : ℚ) ≤ 130 ∧ bandIdx 120 = bandIdx 130 ∧
      (125 : ℚ) - 120 = (135 : ℚ) - 130 ∧ (0 : ℚ) ≤ 2 ∧
      calc_ongoing_rate 120 125 2 ≤ calc_ongoing_rate 130 135 2 :=
  ⟨by norm_num, by norm_num, by norm_num [bandIdx], by norm_num, by norm_num,
    monotone_within_band 120 130 125 135 2 (by norm_num) (by norm_num)
      (by norm_num [bandIdx]) (by norm_num) (by norm_num)⟩
